import Mathlib

/-!
Verification development for the WebGL fluid simulation engine
(`src/fluid-simulation.js`).

The JavaScript program is shallowly embedded: shader float arithmetic is
idealised over `ℝ`, texture coordinates and host-side scalar state over `ℚ`,
grids as total functions `ℕ → ℕ → α`, and the double-buffered render targets
as an explicit two-buffer structure with an active-read selector (the source's
`createDoubleFBO` closure over `fbo1`/`fbo2` with a swapping accessor pair).
`Math.random()` is modelled as a tape of rationals consumed left to right.
The capability-negotiation path modelled is the default desktop one
(`supportLinearFiltering = true`), under which `texture2D` sampling is
hardware bilinear; the advection model uses the same bilinear formula the
shader's `MANUAL_FILTERING` fallback spells out, which is the GL `LINEAR`
semantics with `CLAMP_TO_EDGE`.
-/

namespace FluidSim

noncomputable section

/-! ### Configuration constants (the `CONFIG` object, lines 15-31) -/

namespace CONFIG

def SIM_RESOLUTION : ℚ := 128
def DYE_RESOLUTION : ℚ := 1024
def DENSITY_DISSIPATION : ℝ := 5 / 4
def VELOCITY_DISSIPATION : ℝ := 3 / 10
def PRESSURE : ℝ := 4 / 5
def PRESSURE_ITERATIONS : ℕ := 20
def CURL : ℝ := 35
def SPLAT_RADIUS : ℚ := 7 / 20
def SPLAT_FORCE : ℚ := 6000
def SHADING : Bool := true
def COLORFUL : Bool := true
def COLOR_UPDATE_SPEED : ℚ := 9

end CONFIG

/-! ### JavaScript numeric helpers -/

/-- JavaScript truncation toward zero, as used by the `%` operator. -/
def jsTrunc (q : ℚ) : ℤ := if 0 ≤ q then ⌊q⌋ else ⌈q⌉

/-- JavaScript `%` (fmod): `x % y = x - y * trunc (x / y)`. -/
def jsMod (x y : ℚ) : ℚ := x - y * jsTrunc (x / y)

/-- Model of `wrap(value, min, max)` (lines 771-777). -/
def wrap (value mn mx : ℚ) : ℚ :=
  let range := mx - mn
  if range = 0 then mn
  else jsMod (jsMod (value - mn) range + range) range + mn

/-- Model of `Math.round` on nonnegative inputs: `floor (x + 1/2)`. -/
def jsRound (q : ℚ) : ℕ := (⌊q + 1 / 2⌋).toNat

/-! ### Color generation (`HSVtoRGB`, `PALETTE`, `generateColor`, lines 355-361 and 734-761) -/

/-- Model of `HSVtoRGB(h, s, v)` (lines 744-761). -/
def HSVtoRGB (h s v : ℚ) : ℚ × ℚ × ℚ :=
  let i : ℤ := ⌊h * 6⌋
  let f := h * 6 - i
  let p := v * (1 - s)
  let q := v * (1 - f * s)
  let t := v * (1 - (1 - f) * s)
  let m := i % 6
  if m = 0 then (v, t, p)
  else if m = 1 then (q, v, p)
  else if m = 2 then (p, v, t)
  else if m = 3 then (p, q, v)
  else if m = 4 then (t, p, v)
  else if m = 5 then (v, p, q)
  else (v, t, p)

/-- Model of the `PALETTE` array (lines 355-360): neon cyan, vibrant magenta,
laser lime, deep violet, as `(h, s, v)` triples. -/
def PALETTE : List (ℚ × ℚ × ℚ) :=
  [(195 / 360, 95 / 100, 1),
   (308 / 360, 82 / 100, 1),
   (140 / 360, 72 / 100, 95 / 100),
   (265 / 360, 78 / 100, 96 / 100)]

/-- Hue jitter applied by `generateColor`: `(Math.random() - 0.5) * 0.06`. -/
def jitterOf (rand : ℚ) : ℚ := (rand - 1 / 2) * (6 / 100)

/-- Palette entry picked by a `generateColor` call with current index `idx`:
`PALETTE[paletteIndex++ % PALETTE.length]` reads the old index modulo 4. -/
def genPick (idx : ℕ) : ℚ × ℚ × ℚ := PALETTE.getD (idx % PALETTE.length) (0, 0, 0)

/-- Model of `generateColor()` (lines 734-742). `idx` is the current value of
the module-level `paletteIndex`; `rand` the `Math.random()` draw. Returns the
produced color and the advanced index. -/
def generateColor (idx : ℕ) (rand : ℚ) : (ℚ × ℚ × ℚ) × ℕ :=
  let pick := genPick idx
  let jitter := jitterOf rand
  let c := HSVtoRGB (jsMod (pick.1 + jitter + 1) 1) pick.2.1 pick.2.2
  ((c.1 * (4 / 5), c.2.1 * (4 / 5), c.2.2 * (4 / 5)), idx + 1)

/-- Index state before the `i`-th of a run of consecutive `generateColor`
calls that starts at index `start` and draws from the tape `rands`. -/
def genCallIdx (start : ℕ) (rands : ℕ → ℚ) : ℕ → ℕ
  | 0 => start
  | i + 1 => (generateColor (genCallIdx start rands i) (rands i)).2

/-! ### Random tape -/

/-- Deterministic model of `Math.random()`: a tape of rationals and a cursor. -/
structure RandSource where
  tape : ℕ → ℚ
  pos : ℕ

/-- Draw the next value from the tape. -/
def RandSource.next (r : RandSource) : ℚ × RandSource :=
  (r.tape r.pos, { r with pos := r.pos + 1 })

/-- `generateColor()` drawing its random from the tape. -/
def generateColorR (idx : ℕ) (r : RandSource) : (ℚ × ℚ × ℚ) × ℕ × RandSource :=
  let (x, r') := r.next
  let (c, idx') := generateColor idx x
  (c, idx', r')

/-! ### Pointers (the `pointerPrototype` record, lines 33-44) -/

structure Pointer where
  id : ℤ
  texcoordX : ℚ
  texcoordY : ℚ
  prevTexcoordX : ℚ
  prevTexcoordY : ℚ
  deltaX : ℚ
  deltaY : ℚ
  down : Bool
  moved : Bool
  color : ℚ × ℚ × ℚ
deriving DecidableEq

/-! ### Frame timing (`calcDeltaTime`, lines 393-399) -/

/-- Model of `calcDeltaTime()`: `nowMs` and `lastMs` are the two `Date.now()`
readings in milliseconds; the result is the clamped timestep in seconds. -/
def calcDeltaTime (nowMs lastMs : ℚ) : ℚ :=
  min ((nowMs - lastMs) / 1000) (16666 / 1000000)

/-! ### Color cycling per tick (`updateColors`, lines 412-423) -/

/-- The `pointers.forEach(pointer => pointer.color = generateColor())` loop:
every pointer in the list gets a freshly generated color, consuming one tape
draw per pointer. -/
def reassignColors (idx : ℕ) (r : RandSource) :
    List Pointer → List Pointer × ℕ × RandSource
  | [] => ([], idx, r)
  | p :: ps =>
    let (c, idx', r') := generateColorR idx r
    let (ps', idx'', r'') := reassignColors idx' r' ps
    ({ p with color := c } :: ps', idx'', r'')

/-- Model of `updateColors(dt)` (lines 412-423), acting on the color timer,
the pointer list, the palette index and the random tape. -/
def updateColors (dt timer : ℚ) (ps : List Pointer) (idx : ℕ) (r : RandSource) :
    ℚ × List Pointer × ℕ × RandSource :=
  if CONFIG.COLORFUL = true then
    let t := timer + dt * CONFIG.COLOR_UPDATE_SPEED
    if 1 ≤ t then
      let (ps', idx', r') := reassignColors idx r ps
      (wrap t 0 1, ps', idx', r')
    else (t, ps, idx, r)
  else (timer, ps, idx, r)

/-! ### Grids, render targets and double buffering (lines 610-676) -/

/-- A texture's texel contents, as a total function on texel indices. -/
def Grid (α : Type) : Type := ℕ → ℕ → α

/-- Velocity texels (the RG channels of the velocity texture). -/
abbrev Vec2 : Type := ℝ × ℝ

/-- Dye texels (the RGB channels of the dye texture). -/
abbrev Col3 : Type := ℝ × ℝ × ℝ

/-- Clamp an integer texel index into `[0, n-1]` (`CLAMP_TO_EDGE`). -/
def clampIdx (n : ℕ) (k : ℤ) : ℕ := (max 0 (min k ((n : ℤ) - 1))).toNat

/-- Texture fetch at integer texel offsets with edge clamping. -/
def sampleC {α : Type} (g : Grid α) (w h : ℕ) (i j : ℤ) : α :=
  g (clampIdx w i) (clampIdx h j)

/-- Normalized texture coordinate of the center of texel `i` on an axis of
`n` texels, over `ℚ`: `(i + 1/2) / n`. -/
def texCenterQ (n i : ℕ) : ℚ := ((i : ℚ) + 1 / 2) / n

/-- Normalized texture coordinate of the center of texel `i`, over `ℝ`. -/
def texCenterR (n i : ℕ) : ℝ := ((i : ℝ) + 1 / 2) / n

/-- GLSL `mix(a, b, t) = a + t * (b - a)`. -/
def glMix {α : Type} [AddCommGroup α] [Module ℝ α] (a b : α) (t : ℝ) : α :=
  a + t • (b - a)

/-- GL `LINEAR` sampling with `CLAMP_TO_EDGE` at an arbitrary normalized
coordinate; this is exactly the `bilerp` the advection shader spells out for
the `MANUAL_FILTERING` fallback (lines 183-194). -/
def bilinearSample {α : Type} [AddCommGroup α] [Module ℝ α]
    (w h : ℕ) (g : Grid α) (u v : ℝ) : α :=
  let sx := u * w - 1 / 2
  let sy := v * h - 1 / 2
  let ix := ⌊sx⌋
  let iy := ⌊sy⌋
  let fx := sx - ix
  let fy := sy - iy
  let a := sampleC g w h ix iy
  let b := sampleC g w h (ix + 1) iy
  let c := sampleC g w h ix (iy + 1)
  let d := sampleC g w h (ix + 1) (iy + 1)
  glMix (glMix a b fx) (glMix c d fx) fy

/-- A single render target (`createFBO` result, lines 610-645): dimensions,
texel sizes and texel contents. -/
structure FBO (α : Type) where
  width : ℕ
  height : ℕ
  texelSizeX : ℝ
  texelSizeY : ℝ
  data : Grid α

/-- A freshly allocated render target: cleared to zero (`gl.clear` after
allocation, line 627), texel sizes the reciprocals of the dimensions. -/
def freshFBO (α : Type) [Zero α] (w h : ℕ) : FBO α :=
  { width := w, height := h, texelSizeX := 1 / w, texelSizeY := 1 / h,
    data := fun _ _ => 0 }

/-- Model of `createFBO(w, h, ..., existingFbo)` (lines 610-645): an existing
target with matching dimensions is returned as-is; otherwise a fresh cleared
target is allocated. -/
def createFBO {α : Type} [Zero α] (w h : ℕ) (existing : Option (FBO α)) : FBO α :=
  match existing with
  | some e => if e.width = w ∧ e.height = h then e else freshFBO α w h
  | none => freshFBO α w h

/-- A double-buffered render target (`createDoubleFBO`, lines 647-676): two
same-shaped buffers plus the active-read selector; `read` is the buffer the
selector points at, `write` the other, and `swap` flips the selector. -/
structure DoubleFBO (α : Type) where
  width : ℕ
  height : ℕ
  texelSizeX : ℝ
  texelSizeY : ℝ
  buf0 : Grid α
  buf1 : Grid α
  readIdx : Bool

/-- The buffer currently designated for reading. -/
def DoubleFBO.read {α : Type} (d : DoubleFBO α) : Grid α :=
  if d.readIdx then d.buf1 else d.buf0

/-- The buffer currently designated for writing. -/
def DoubleFBO.write {α : Type} (d : DoubleFBO α) : Grid α :=
  if d.readIdx then d.buf0 else d.buf1

/-- Replace the contents of the write buffer (the effect of a full-viewport
`blit` into `x.write.fbo`). -/
def DoubleFBO.setWrite {α : Type} (d : DoubleFBO α) (g : Grid α) : DoubleFBO α :=
  if d.readIdx then { d with buf0 := g } else { d with buf1 := g }

/-- `swap()`: flip the active-read selector. -/
def DoubleFBO.swap {α : Type} (d : DoubleFBO α) : DoubleFBO α :=
  { d with readIdx := !d.readIdx }

/-- A freshly allocated double target: both buffers cleared to zero. -/
def freshDoubleFBO (α : Type) [Zero α] (w h : ℕ) : DoubleFBO α :=
  { width := w, height := h, texelSizeX := 1 / w, texelSizeY := 1 / h,
    buf0 := fun _ _ => 0, buf1 := fun _ _ => 0, readIdx := false }

/-- Model of `createDoubleFBO(w, h, ..., existingDouble)` (lines 647-676). -/
def createDoubleFBO {α : Type} [Zero α] (w h : ℕ) (existing : Option (DoubleFBO α)) :
    DoubleFBO α :=
  match existing with
  | some e => if e.width = w ∧ e.height = h then e else freshDoubleFBO α w h
  | none => freshDoubleFBO α w h

/-! ### Shader kernels (fragment shaders, lines 98-334) -/

/-- Value written by the `clearShader` (lines 98-109) at a texel:
`value * texture2D(uTexture, vUv)`. -/
def clearShaderAt (value : ℝ) (src : Grid ℝ) (i j : ℕ) : ℝ :=
  value * src i j

/-- Value written by the `curlShader` (lines 237-256). -/
def curlShaderAt (w h : ℕ) (vel : Grid Vec2) (i j : ℕ) : ℝ :=
  let l := (sampleC vel w h ((i : ℤ) - 1) j).2
  let r := (sampleC vel w h ((i : ℤ) + 1) j).2
  let t := (sampleC vel w h i ((j : ℤ) + 1)).1
  let b := (sampleC vel w h i ((j : ℤ) - 1)).1
  let vorticity := r - l - t + b
  (1 / 2) * vorticity

/-- Value written by the `vorticityShader` (lines 258-287). -/
def vorticityShaderAt (w h : ℕ) (vel : Grid Vec2) (crl : Grid ℝ)
    (curlStrength dt : ℝ) (i j : ℕ) : Vec2 :=
  let l := sampleC crl w h ((i : ℤ) - 1) j
  let r := sampleC crl w h ((i : ℤ) + 1) j
  let t := sampleC crl w h i ((j : ℤ) + 1)
  let b := sampleC crl w h i ((j : ℤ) - 1)
  let c := crl i j
  let force0 : Vec2 := ((1 / 2) * (|t| - |b|), (1 / 2) * (|r| - |l|))
  let len := Real.sqrt (force0.1 ^ 2 + force0.2 ^ 2)
  let force1 : Vec2 := (force0.1 / (len + 1 / 10000), force0.2 / (len + 1 / 10000))
  let force2 : Vec2 := (force1.1 * (curlStrength * c), force1.2 * (curlStrength * c))
  let force : Vec2 := (force2.1, force2.2 * (-1))
  let v := vel i j
  (v.1 + force.1 * dt, v.2 + force.2 * dt)

/-- Value written by the `divergenceShader` (lines 209-235). The boundary
branches are kept literally as the shader's comparisons of the varying
coordinates `vL.x < 0`, `vR.x > 1`, `vT.y > 1`, `vB.y < 0`, where the
varyings are one (velocity) texel away from the fragment's `vUv`. -/
def divergenceShaderAt (w h : ℕ) (vel : Grid Vec2) (i j : ℕ) : ℝ :=
  let l0 := (sampleC vel w h ((i : ℤ) - 1) j).1
  let r0 := (sampleC vel w h ((i : ℤ) + 1) j).1
  let t0 := (sampleC vel w h i ((j : ℤ) + 1)).2
  let b0 := (sampleC vel w h i ((j : ℤ) - 1)).2
  let c := vel i j
  let l := if texCenterQ w i - 1 / w < 0 then -c.1 else l0
  let r := if 1 < texCenterQ w i + 1 / w then -c.1 else r0
  let t := if 1 < texCenterQ h j + 1 / h then -c.2 else t0
  let b := if texCenterQ h j - 1 / h < 0 then -c.2 else b0
  (1 / 2) * (r - l + t - b)

/-- Value written by the `pressureShader` (lines 289-311):
`(L + R + B + T - divergence) * 0.25`, sampling the previous pressure buffer
and the divergence field. -/
def pressureShaderAt (w h : ℕ) (prs dvg : Grid ℝ) (i j : ℕ) : ℝ :=
  let l := sampleC prs w h ((i : ℤ) - 1) j
  let r := sampleC prs w h ((i : ℤ) + 1) j
  let t := sampleC prs w h i ((j : ℤ) + 1)
  let b := sampleC prs w h i ((j : ℤ) - 1)
  (l + r + b + t - dvg i j) * (1 / 4)

/-- Value written by the `gradientSubtractShader` (lines 313-334). -/
def gradientSubtractAt (w h : ℕ) (prs : Grid ℝ) (vel : Grid Vec2) (i j : ℕ) : Vec2 :=
  let l := sampleC prs w h ((i : ℤ) - 1) j
  let r := sampleC prs w h ((i : ℤ) + 1) j
  let t := sampleC prs w h i ((j : ℤ) + 1)
  let b := sampleC prs w h i ((j : ℤ) - 1)
  let v := vel i j
  (v.1 - (r - l), v.2 - (t - b))

/-- Value written by the `advectionShader` (lines 171-207) at a texel of the
destination grid (`dw × dh`): a semi-Lagrangian backtrace through the velocity
field followed by bilinear resampling of the source and exponential decay.
The `texelSize` uniform is the velocity texture's texel size in both the
velocity and the dye pass (lines 493-507). -/
def advectionAt {α : Type} [AddCommGroup α] [Module ℝ α]
    (dw dh : ℕ) (vw vh : ℕ) (vel : Grid Vec2) (vtx vty : ℝ)
    (sw sh : ℕ) (src : Grid α) (dt dissipation : ℝ) (i j : ℕ) : α :=
  let u := texCenterR dw i
  let v := texCenterR dh j
  let velHere := bilinearSample vw vh vel u v
  let cx := u - dt * velHere.1 * vtx
  let cy := v - dt * velHere.2 * vty
  let result := bilinearSample sw sh src cx cy
  let decay := 1 + dissipation * dt
  (decay⁻¹) • result

/-- Gaussian falloff of the `splatShader` (lines 151-169):
`exp(-dot(p, p) / radius)` after the aspect-ratio correction `p.x *= aspect`. -/
def splatFalloff (aspect radius : ℝ) (px py : ℝ) : ℝ :=
  Real.exp (-((px * aspect) ^ 2 + py ^ 2) / radius)

/-- Value written by the `splatShader` at a texel: base plus the Gaussian
impulse. -/
def splatShaderAt {α : Type} [AddCommGroup α] [Module ℝ α]
    (w h : ℕ) (aspect radius : ℝ) (x y : ℝ) (impulse : α) (base : Grid α)
    (i j : ℕ) : α :=
  base i j + splatFalloff aspect radius (texCenterR w i - x) (texCenterR h j - y) • impulse

/-- Per-fragment value of the `displayShader` (lines 121-149), sampling the
dye texture bilinearly at the display pixel's coordinate and its four
one-display-texel neighbors. -/
def displayShaderAt (w h : ℕ) (dyeW dyeH : ℕ) (dye : Grid Col3)
    (lightingStrength : ℝ) (px py : ℕ) : Col3 :=
  let tx : ℝ := 1 / w
  let ty : ℝ := 1 / h
  let u := texCenterR w px
  let v := texCenterR h py
  let c := bilinearSample dyeW dyeH dye u v
  let l := bilinearSample dyeW dyeH dye (u - tx) v
  let r := bilinearSample dyeW dyeH dye (u + tx) v
  let t := bilinearSample dyeW dyeH dye u (v + ty)
  let b := bilinearSample dyeW dyeH dye u (v - ty)
  let len3 : Col3 → ℝ := fun q => Real.sqrt (q.1 ^ 2 + q.2.1 ^ 2 + q.2.2 ^ 2)
  let dx := len3 r - len3 l
  let dy := len3 t - len3 b
  let tz := Real.sqrt (tx ^ 2 + ty ^ 2)
  let nlen := Real.sqrt (dx ^ 2 + dy ^ 2 + tz ^ 2)
  let nz := tz / nlen
  let diffuse := min (max (nz + lightingStrength) (3 / 10)) (5 / 4)
  (c.1 * diffuse, c.2.1 * diffuse, c.2.2 * diffuse)

/-! ### The five fields and the solver stages (`step`, lines 437-514) -/

/-- The five simulation fields (lines 348-352). -/
structure Fields where
  dye : DoubleFBO Col3
  velocity : DoubleFBO Vec2
  divergence : FBO ℝ
  curl : FBO ℝ
  pressure : DoubleFBO ℝ

/-- Stage 1: curl pass (lines 451-454), written into the single `curl` target. -/
def curlStage (f : Fields) : Fields :=
  { f with curl := { f.curl with
      data := fun i j => curlShaderAt f.velocity.width f.velocity.height f.velocity.read i j } }

/-- Stage 2: vorticity confinement (lines 456-463), written into the velocity
write buffer, then one swap. -/
def vorticityStage (dt : ℝ) (f : Fields) : Fields :=
  { f with velocity := DoubleFBO.swap (DoubleFBO.setWrite f.velocity
      (fun i j => vorticityShaderAt f.velocity.width f.velocity.height
        f.velocity.read f.curl.data CONFIG.CURL dt i j)) }

/-- Stage 3: divergence pass (lines 465-468), written into the single
`divergence` target. -/
def divergenceStage (f : Fields) : Fields :=
  { f with divergence := { f.divergence with
      data := fun i j => divergenceShaderAt f.velocity.width f.velocity.height
        f.velocity.read i j } }

/-- Stage 4: pressure warm-start (lines 470-474): the `clearShader` writes
`CONFIG.PRESSURE * pressure.read` into the write buffer, then one swap. -/
def clearStage (f : Fields) : Fields :=
  { f with pressure := DoubleFBO.swap (DoubleFBO.setWrite f.pressure
      (fun i j => clearShaderAt CONFIG.PRESSURE f.pressure.read i j)) }

/-- One Jacobi relaxation pass of the pressure solve (loop body, lines
480-482): write the stencil update into the write buffer, then one swap. -/
def jacobiPass (dvg : Grid ℝ) (p : DoubleFBO ℝ) : DoubleFBO ℝ :=
  DoubleFBO.swap (DoubleFBO.setWrite p
    (fun i j => pressureShaderAt p.width p.height p.read dvg i j))

/-- The pressure-iteration `for` loop (lines 479-483). -/
def pressureLoop (dvg : Grid ℝ) : ℕ → DoubleFBO ℝ → DoubleFBO ℝ
  | 0, p => p
  | n + 1, p => pressureLoop dvg n (jacobiPass dvg p)

/-- Stage 5: pressure projection, `CONFIG.PRESSURE_ITERATIONS` Jacobi passes. -/
def pressureStage (f : Fields) : Fields :=
  { f with pressure := pressureLoop f.divergence.data CONFIG.PRESSURE_ITERATIONS f.pressure }

/-- Stage 6: gradient subtraction (lines 485-490). -/
def gradientStage (f : Fields) : Fields :=
  { f with velocity := DoubleFBO.swap (DoubleFBO.setWrite f.velocity
      (fun i j => gradientSubtractAt f.velocity.width f.velocity.height
        f.pressure.read f.velocity.read i j)) }

/-- Stage 7: velocity self-advection (lines 492-503). -/
def advectVelocityStage (dt : ℝ) (f : Fields) : Fields :=
  { f with velocity := DoubleFBO.swap (DoubleFBO.setWrite f.velocity
      (fun i j => advectionAt f.velocity.width f.velocity.height
        f.velocity.width f.velocity.height f.velocity.read
        f.velocity.texelSizeX f.velocity.texelSizeY
        f.velocity.width f.velocity.height f.velocity.read
        dt CONFIG.VELOCITY_DISSIPATION i j)) }

/-- Stage 8: dye advection (lines 505-513), at the dye resolution, sampling
the already-advected velocity. -/
def advectDyeStage (dt : ℝ) (f : Fields) : Fields :=
  { f with dye := DoubleFBO.swap (DoubleFBO.setWrite f.dye
      (fun i j => advectionAt f.dye.width f.dye.height
        f.velocity.width f.velocity.height f.velocity.read
        f.velocity.texelSizeX f.velocity.texelSizeY
        f.dye.width f.dye.height f.dye.read
        dt CONFIG.DENSITY_DISSIPATION i j)) }

/-- Model of `step(dt)` (lines 437-514): the fixed-order solver pipeline. -/
def step (dt : ℝ) (f : Fields) : Fields :=
  advectDyeStage dt (advectVelocityStage dt (gradientStage (pressureStage
    (clearStage (divergenceStage (vorticityStage dt (curlStage f)))))))

/-! ### Splat injection (lines 552-592, 948-954) -/

/-- Model of `correctRadius(radius)` (lines 948-954): when the surface is
wider than tall the radius is scaled by the aspect ratio. -/
def correctRadius (aspect radius : ℚ) : ℚ :=
  if 1 < aspect then radius * aspect else radius

/-- Model of `splat(x, y, dx, dy, color)` (lines 572-592): one additive
Gaussian pass into velocity (impulse `(dx, dy)`), one into dye (the color),
each followed by a swap. -/
def splat (aspect x y dx dy : ℚ) (color : ℚ × ℚ × ℚ) (f : Fields) : Fields :=
  let radius : ℝ := (correctRadius aspect (CONFIG.SPLAT_RADIUS / 100) : ℚ)
  let vel' := DoubleFBO.swap (DoubleFBO.setWrite f.velocity
    (fun i j => splatShaderAt f.velocity.width f.velocity.height
      (aspect : ℝ) radius (x : ℝ) (y : ℝ) (((dx : ℝ), (dy : ℝ)) : Vec2)
      f.velocity.read i j))
  let dye' := DoubleFBO.swap (DoubleFBO.setWrite f.dye
    (fun i j => splatShaderAt f.dye.width f.dye.height
      (aspect : ℝ) radius (x : ℝ) (y : ℝ)
      (((color.1 : ℝ), (color.2.1 : ℝ), (color.2.2 : ℝ)) : Col3)
      f.dye.read i j))
  { f with velocity := vel', dye := dye' }

/-- Model of `splatPointer(pointer)` (lines 566-570). -/
def splatPointer (aspect : ℚ) (p : Pointer) (f : Fields) : Fields :=
  splat aspect p.texcoordX p.texcoordY
    (p.deltaX * CONFIG.SPLAT_FORCE) (p.deltaY * CONFIG.SPLAT_FORCE) p.color f

/-- Model of `multipleSplats(amount)` (lines 552-564): each splat draws a
fresh palette color (scaled by 12), a random position and a random impulse. -/
def multipleSplats (aspect : ℚ) (amount : ℕ) (idx : ℕ) (r : RandSource)
    (f : Fields) : Fields × ℕ × RandSource :=
  match amount with
  | 0 => (f, idx, r)
  | n + 1 =>
    let (c, idx1, r1) := generateColorR idx r
    let c12 : ℚ × ℚ × ℚ := (c.1 * 12, c.2.1 * 12, c.2.2 * 12)
    let (x, r2) := r1.next
    let (y, r3) := r2.next
    let (u, r4) := r3.next
    let (v, r5) := r4.next
    let dx := 1000 * (u - 1 / 2)
    let dy := 1000 * (v - 1 / 2)
    multipleSplats aspect n idx1 r5 (splat aspect x y dx dy c12 f)

/-- Total injected falloff mass of one splat pass: the integral of the
aspect-corrected Gaussian over the plane (per unit impulse). -/
def splatTotal (aspect radius : ℝ) : ℝ :=
  ∫ p : ℝ × ℝ, splatFalloff aspect radius p.1 p.2

/-! ### Resizing (`initFramebuffers` / `getResolution`, lines 594-608, 779-790) -/

/-- Model of `getResolution(resolution)` (lines 779-790), returning
`(width, height)` of the grid for the given canvas pixel dimensions. -/
def getResolution (cw ch : ℕ) (resolution : ℚ) : ℕ × ℕ :=
  let aspect0 : ℚ := (cw : ℚ) / (ch : ℚ)
  let aspect := if aspect0 < 1 then 1 / aspect0 else aspect0
  let mn := jsRound resolution
  let mx := jsRound (resolution * aspect)
  if ch < cw then (mx, mn) else (mn, mx)

/-- Model of `initFramebuffers()` (lines 594-608): resize all five fields. -/
def initFramebuffers (cw ch : ℕ) (old : Option Fields) : Fields :=
  let simRes := getResolution cw ch CONFIG.SIM_RESOLUTION
  let dyeRes := getResolution cw ch CONFIG.DYE_RESOLUTION
  { dye := createDoubleFBO dyeRes.1 dyeRes.2 (old.map (·.dye)),
    velocity := createDoubleFBO simRes.1 simRes.2 (old.map (·.velocity)),
    divergence := createFBO simRes.1 simRes.2 (old.map (·.divergence)),
    curl := createFBO simRes.1 simRes.2 (old.map (·.curl)),
    pressure := createDoubleFBO simRes.1 simRes.2 (old.map (·.pressure)) }

/-! ### The per-tick driver (`update`, lines 379-391) -/

/-- The rendered frame: RGB per display pixel. -/
def Image : Type := ℕ → ℕ → Col3

/-- Full mutable engine state threaded through a tick. -/
structure EngineState where
  canvasW : ℕ
  canvasH : ℕ
  fields : Fields
  pointers : List Pointer
  splatStack : List ℕ
  colorTimer : ℚ
  paletteIdx : ℕ
  rnd : RandSource

/-- Model of the `resizeCanvas()` check plus `initFramebuffers()` call
(lines 381-383, 401-410): `clientW`/`clientH` are the pixel-ratio-scaled
client dimensions. -/
def resizePhase (clientW clientH : ℕ) (st : EngineState) : EngineState :=
  if st.canvasW = clientW ∧ st.canvasH = clientH then st
  else { st with canvasW := clientW, canvasH := clientH,
                 fields := initFramebuffers clientW clientH (some st.fields) }

/-- Model of the `updateColors(dt)` call inside a tick. -/
def colorPhase (dt : ℚ) (st : EngineState) : EngineState :=
  let (t, ps, idx, r) := updateColors dt st.colorTimer st.pointers st.paletteIdx st.rnd
  { st with colorTimer := t, pointers := ps, paletteIdx := idx, rnd := r }

/-- The `pointers.forEach` body of `applyInputs` (lines 429-434): each moved
pointer has its flag consumed and fires one splat. -/
def splatPointers (aspect : ℚ) : List Pointer → Fields → List Pointer × Fields
  | [], f => ([], f)
  | p :: ps, f =>
    let pf : Pointer × Fields :=
      if p.moved then ({ p with moved := false }, splatPointer aspect p f) else (p, f)
    let (ps', f'') := splatPointers aspect ps pf.2
    (pf.1 :: ps', f'')

/-- Model of `applyInputs()` (lines 425-435): pop at most one pending splat
burst, then consume the moved flags. -/
def inputPhase (st : EngineState) : EngineState :=
  let aspect : ℚ := (st.canvasW : ℚ) / (st.canvasH : ℚ)
  match st.splatStack with
  | [] =>
    let (ps, f) := splatPointers aspect st.pointers st.fields
    { st with pointers := ps, fields := f }
  | amt :: rest =>
    let (f1, idx1, r1) := multipleSplats aspect amt st.paletteIdx st.rnd st.fields
    let (ps, f2) := splatPointers aspect st.pointers f1
    { st with pointers := ps, fields := f2, splatStack := rest,
              paletteIdx := idx1, rnd := r1 }

/-- Model of `render(null)` (lines 516-550) with the default configuration
(`TRANSPARENT = false`, `SHADING = true`): the background fill is overwritten
by the display pass, whose lighting strength is `0.65`. -/
def renderImage (st : EngineState) : Image :=
  fun px py => displayShaderAt st.canvasW st.canvasH
    st.fields.dye.width st.fields.dye.height st.fields.dye.read
    (if CONFIG.SHADING then 13 / 20 else 0) px py

/-- Model of one `update()` tick (lines 379-391), with `dt` the value
`calcDeltaTime()` produced and `paused` the current `CONFIG.PAUSED` flag:
resize check, color cycling, input consumption, the solver step (skipped
exactly when paused), and the render pass. -/
def update (paused : Bool) (dt : ℚ) (clientW clientH : ℕ) (st : EngineState) :
    EngineState × Image :=
  let st1 := resizePhase clientW clientH st
  let st2 := colorPhase dt st1
  let st3 := inputPhase st2
  let st4 := if paused then st3 else { st3 with fields := step (dt : ℝ) st3.fields }
  (st4, renderImage st4)

/-- Model of the host-facing `FluidField.splatNormalized` (lines 1026-1030)
with an explicitly supplied color: the impulse is pre-scaled by 1500 and
handed straight to `splat`, with no pause check. -/
def splatNormalized (aspect x y dx dy : ℚ) (color : ℚ × ℚ × ℚ) (f : Fields) : Fields :=
  splat aspect x y (dx * 1500) (dy * 1500) color f

/-- The spec's wording of the reassignment applied on a color-timer crossing,
for comparison with `updateColors`: pointer `k` of the list receives the
`k`-th freshly generated color, regardless of its `down` state. -/
def reassignedList (idx : ℕ) (tape : ℕ → ℚ) (pos : ℕ) : List Pointer → List Pointer
  | [] => []
  | p :: ps =>
    { p with color := (generateColor idx (tape pos)).1 }
      :: reassignedList (idx + 1) tape (pos + 1) ps

/-! ### Concrete states used below -/

/-- A 2×2 fresh set of fields, all buffers zero. -/
def demoFields : Fields :=
  { dye := freshDoubleFBO Col3 2 2,
    velocity := freshDoubleFBO Vec2 2 2,
    divergence := freshFBO ℝ 2 2,
    curl := freshFBO ℝ 2 2,
    pressure := freshDoubleFBO ℝ 2 2 }

/-- Fields whose pressure buffers hold the constant 1. -/
def onesPressureFields : Fields :=
  { demoFields with pressure :=
      { freshDoubleFBO ℝ 2 2 with buf0 := fun _ _ => 1, buf1 := fun _ _ => 1 } }

/-- A pressed pointer with a pending move (its splat has not yet fired). -/
def movedPointer : Pointer :=
  { id := -1, texcoordX := 1 / 2, texcoordY := 1 / 2,
    prevTexcoordX := 2 / 5, prevTexcoordY := 1 / 2,
    deltaX := 1 / 10, deltaY := 0, down := true, moved := true,
    color := (1, 0, 0) }

/-- A pressed pointer with no pending move. -/
def idlePointer : Pointer := { movedPointer with deltaX := 0, moved := false }

/-- A released pointer carrying the prototype's initial color. -/
def coldPointer : Pointer :=
  { id := -1, texcoordX := 0, texcoordY := 0,
    prevTexcoordX := 0, prevTexcoordY := 0,
    deltaX := 0, deltaY := 0, down := false, moved := false,
    color := (30, 0, 300) }

/-- A constant random tape. -/
def demoTape : RandSource := { tape := fun _ => 1 / 2, pos := 0 }

/-- Engine state about to run a paused tick with a pending pointer splat. -/
def pausedMovedState : EngineState :=
  { canvasW := 100, canvasH := 100, fields := demoFields,
    pointers := [movedPointer], splatStack := [], colorTimer := 0,
    paletteIdx := 0, rnd := demoTape }

/-- Engine state about to run a paused tick with no pending inputs. -/
def pausedIdleState : EngineState := { pausedMovedState with pointers := [idlePointer] }

end

/-! ## Helper lemmas -/

theorem DoubleFBO.readIdx_setWrite {α : Type} (d : DoubleFBO α) (g : Grid α) :
    (d.setWrite g).readIdx = d.readIdx := by
  unfold DoubleFBO.setWrite
  split <;> rfl

theorem DoubleFBO.readIdx_swap {α : Type} (d : DoubleFBO α) :
    d.swap.readIdx = !d.readIdx := rfl

theorem DoubleFBO.read_swap_setWrite {α : Type} (d : DoubleFBO α) (g : Grid α) :
    ((d.setWrite g).swap).read = g := by
  rcases d with ⟨w, h, tx, ty, b0, b1, ri⟩
  cases ri <;> simp [DoubleFBO.read, DoubleFBO.setWrite, DoubleFBO.swap]

theorem DoubleFBO.readIdx_swap_setWrite {α : Type} (d : DoubleFBO α) (g : Grid α) :
    ((d.setWrite g).swap).readIdx = !d.readIdx := by
  rw [DoubleFBO.readIdx_swap, DoubleFBO.readIdx_setWrite]

theorem DoubleFBO.width_setWrite {α : Type} (d : DoubleFBO α) (g : Grid α) :
    (d.setWrite g).width = d.width := by
  unfold DoubleFBO.setWrite
  split <;> rfl

theorem DoubleFBO.height_setWrite {α : Type} (d : DoubleFBO α) (g : Grid α) :
    (d.setWrite g).height = d.height := by
  unfold DoubleFBO.setWrite
  split <;> rfl

theorem pressureLoop_succ (dvg : Grid ℝ) (n : ℕ) (p : DoubleFBO ℝ) :
    pressureLoop dvg (n + 1) p = pressureLoop dvg n (jacobiPass dvg p) := rfl

theorem jacobiPass_readIdx (dvg : Grid ℝ) (p : DoubleFBO ℝ) :
    (jacobiPass dvg p).readIdx = !p.readIdx :=
  DoubleFBO.readIdx_swap_setWrite p _

theorem pressureLoop_readIdx (dvg : Grid ℝ) :
    ∀ (n : ℕ) (p : DoubleFBO ℝ),
      (pressureLoop dvg n p).readIdx = (if n % 2 = 0 then p.readIdx else !p.readIdx)
  | 0, p => by simp [pressureLoop]
  | n + 1, p => by
    rw [pressureLoop_succ, pressureLoop_readIdx dvg n, jacobiPass_readIdx]
    rcases Nat.mod_two_eq_zero_or_one n with h | h
    · have h2 : (n + 1) % 2 = 1 := by omega
      simp [h, h2]
    · have h2 : (n + 1) % 2 = 0 := by omega
      simp [h, h2]

theorem clampIdx_of_mem (n : ℕ) (k : ℤ) (h0 : 0 ≤ k) (h1 : k < n) :
    clampIdx n k = k.toNat := by
  unfold clampIdx
  rw [min_eq_left (by omega), max_eq_right h0]

/-! ## Claim theorems -/

/-- C1: in every unpaused tick, the pressure projection stage runs exactly
`CONFIG.PRESSURE_ITERATIONS` (= 20) Jacobi passes; each pass reads the
previous pressure buffer and the divergence field, writes
`(L + R + T + B - divergence) / 4` into the write buffer, and toggles the
pressure double buffer's active-read selector exactly once. -/
theorem pressure_projection_runs_n_jacobi_passes
    (dt : ℚ) (cw ch : ℕ) (st : EngineState) (f : Fields)
    (dvg : Grid ℝ) (p : DoubleFBO ℝ) (n i j : ℕ) :
    CONFIG.PRESSURE_ITERATIONS = 20 ∧
    (update false dt cw ch st).1.fields
      = step (dt : ℝ) (inputPhase (colorPhase dt (resizePhase cw ch st))).fields ∧
    (step (dt : ℝ) f).pressure
      = pressureLoop
          (clearStage (divergenceStage (vorticityStage (dt : ℝ) (curlStage f)))).divergence.data
          CONFIG.PRESSURE_ITERATIONS
          (clearStage (divergenceStage (vorticityStage (dt : ℝ) (curlStage f)))).pressure ∧
    pressureLoop dvg (n + 1) p = pressureLoop dvg n (jacobiPass dvg p) ∧
    (jacobiPass dvg p).read i j
      = (sampleC p.read p.width p.height ((i : ℤ) - 1) j
         + sampleC p.read p.width p.height ((i : ℤ) + 1) j
         + sampleC p.read p.width p.height i ((j : ℤ) + 1)
         + sampleC p.read p.width p.height i ((j : ℤ) - 1)
         - dvg i j) / 4 ∧
    (jacobiPass dvg p).readIdx = !p.readIdx ∧
    (pressureLoop dvg n p).readIdx = (if n % 2 = 0 then p.readIdx else !p.readIdx) := by
  refine ⟨rfl, rfl, rfl, rfl, ?_, jacobiPass_readIdx dvg p, pressureLoop_readIdx dvg n p⟩
  show ((p.setWrite _).swap).read i j = _
  rw [DoubleFBO.read_swap_setWrite]
  unfold pressureShaderAt
  ring

/-- C2: the pressure warm-start stage multiplies the old pressure field
pointwise by `CONFIG.PRESSURE = 0.8 < 1`; the stages that precede it in a
tick leave the pressure field untouched, and a nonzero pressure value is not
reset to zero. -/
theorem pressure_warm_start_decay (f : Fields) (dt : ℝ) (i j : ℕ) :
    (clearStage f).pressure.read i j = CONFIG.PRESSURE * f.pressure.read i j ∧
    (divergenceStage (vorticityStage dt (curlStage f))).pressure = f.pressure ∧
    CONFIG.PRESSURE = 4 / 5 ∧ CONFIG.PRESSURE < 1 ∧
    (f.pressure.read i j ≠ 0 → (clearStage f).pressure.read i j ≠ 0) := by
  have hread : (clearStage f).pressure.read i j = CONFIG.PRESSURE * f.pressure.read i j := by
    show ((f.pressure.setWrite _).swap).read i j = _
    rw [DoubleFBO.read_swap_setWrite]
    rfl
  refine ⟨hread, rfl, rfl, by norm_num [CONFIG.PRESSURE], fun h => ?_⟩
  rw [hread]
  exact mul_ne_zero (by norm_num [CONFIG.PRESSURE]) h

/-- Witness for C2 at a concrete field: a unit pressure value survives the
warm start as the nonzero value 0.8. -/
theorem pressure_warm_start_decay_witness :
    (clearStage onesPressureFields).pressure.read 0 0 ≠ 0 :=
  (pressure_warm_start_decay onesPressureFields 0 0 0).2.2.2.2
    (by norm_num [onesPressureFields, demoFields, freshDoubleFBO, DoubleFBO.read])

/-- C4: the timestep equals the elapsed wall-clock seconds when below the
clamp threshold 0.016666, equals the threshold when at or above it, and is
never negative. -/
theorem timestep_clamp (nowMs lastMs : ℚ) (h : lastMs ≤ nowMs) :
    ((nowMs - lastMs) / 1000 < 16666 / 1000000 →
      calcDeltaTime nowMs lastMs = (nowMs - lastMs) / 1000) ∧
    (16666 / 1000000 ≤ (nowMs - lastMs) / 1000 →
      calcDeltaTime nowMs lastMs = 16666 / 1000000) ∧
    0 ≤ calcDeltaTime nowMs lastMs := by
  unfold calcDeltaTime
  refine ⟨fun hlt => min_eq_left hlt.le, fun hge => min_eq_right hge, ?_⟩
  exact le_min (div_nonneg (by linarith) (by norm_num)) (by norm_num)

/-- Witness for C4: a 20 ms frame gap is clamped to the threshold. -/
theorem timestep_clamp_witness : calcDeltaTime 20 0 = 16666 / 1000000 :=
  (timestep_clamp 20 0 (by norm_num)).2.1 (by norm_num)

/-- C5: resizing a field or double field to its current dimensions returns
the very same object (no reallocation, contents preserved); resizing to
different dimensions discards it and allocates a fresh zero-cleared object
with reciprocal texel sizes (no content migration). -/
theorem resize_is_identity_or_hard_reset {α : Type} [Zero α]
    (w h : ℕ) (e : FBO α) (d : DoubleFBO α) (i j : ℕ) :
    (e.width = w ∧ e.height = h → createFBO w h (some e) = e) ∧
    (¬(e.width = w ∧ e.height = h) →
      createFBO w h (some e) = freshFBO α w h ∧
      (createFBO w h (some e)).data i j = 0 ∧
      (createFBO w h (some e)).texelSizeX = 1 / w ∧
      (createFBO w h (some e)).texelSizeY = 1 / h) ∧
    (d.width = w ∧ d.height = h → createDoubleFBO w h (some d) = d) ∧
    (¬(d.width = w ∧ d.height = h) →
      createDoubleFBO w h (some d) = freshDoubleFBO α w h ∧
      (createDoubleFBO w h (some d)).buf0 i j = 0 ∧
      (createDoubleFBO w h (some d)).buf1 i j = 0 ∧
      (createDoubleFBO w h (some d)).texelSizeX = 1 / w ∧
      (createDoubleFBO w h (some d)).texelSizeY = 1 / h) := by
  refine ⟨fun hm => ?_, fun hm => ?_, fun hm => ?_, fun hm => ?_⟩ <;>
    simp [createFBO, createDoubleFBO, hm, freshFBO, freshDoubleFBO]

/-- Witness for C5: a 2×2 field resized to 2×2 is returned unchanged, and
resized to 3×3 is reallocated with zeroed contents. -/
theorem resize_is_identity_or_hard_reset_witness :
    createFBO 2 2 (some (freshFBO ℝ 2 2)) = freshFBO ℝ 2 2 ∧
    (createFBO 3 3 (some (freshFBO ℝ 2 2))).data 0 0 = 0 ∧
    createDoubleFBO 3 3 (some (freshDoubleFBO ℝ 2 2)) = freshDoubleFBO ℝ 3 3 :=
  ⟨(resize_is_identity_or_hard_reset 2 2 (freshFBO ℝ 2 2) (freshDoubleFBO ℝ 2 2) 0 0).1
      (by constructor <;> rfl),
   ((resize_is_identity_or_hard_reset 3 3 (freshFBO ℝ 2 2) (freshDoubleFBO ℝ 2 2) 0 0).2.1
      (by simp [freshFBO])).2.1,
   ((resize_is_identity_or_hard_reset 3 3 (freshFBO ℝ 2 2) (freshDoubleFBO ℝ 2 2) 0 0).2.2.2
      (by simp [freshDoubleFBO])).1⟩

theorem sampleC_eval {α : Type} (g : Grid α) (w h : ℕ) (a b : ℤ)
    (ha0 : 0 ≤ a) (haw : a < w) (hb0 : 0 ≤ b) (hbh : b < h) :
    sampleC g w h a b = g a.toNat b.toNat := by
  unfold sampleC
  rw [clampIdx_of_mem w a ha0 haw, clampIdx_of_mem h b hb0 hbh]

/-- C3: the divergence pass computes `0.5 * ((R - L) + (T - B))` from the
velocity 4-neighborhood at interior texels, and at each domain edge the
out-of-bounds neighbor sample is replaced by the negated center velocity
component on that axis. -/
theorem divergence_mirrored_boundary (w h : ℕ) (vel : Grid Vec2) (i j : ℕ)
    (hi : i < w) (hj : j < h) :
    divergenceShaderAt w h vel i j
      = (1 / 2) * (((if i = w - 1 then -(vel i j).1 else (vel (i + 1) j).1)
                    - (if i = 0 then -(vel i j).1 else (vel (i - 1) j).1))
                 + ((if j = h - 1 then -(vel i j).2 else (vel i (j + 1)).2)
                    - (if j = 0 then -(vel i j).2 else (vel i (j - 1)).2))) := by
  have edgeLow : ∀ (n k : ℕ), k < n → (texCenterQ n k - 1 / n < 0 ↔ k = 0) := by
    intro n k hk
    have hn : (0 : ℚ) < n := by exact_mod_cast Nat.pos_of_ne_zero (by omega)
    unfold texCenterQ
    rw [div_sub_div_same, div_lt_iff₀ hn]
    constructor
    · intro hlt
      by_contra hne
      have h1 : (1 : ℚ) ≤ (k : ℚ) := by exact_mod_cast Nat.one_le_iff_ne_zero.mpr hne
      nlinarith
    · intro hk0
      subst hk0
      push_cast
      nlinarith
  have edgeHigh : ∀ (n k : ℕ), k < n → (1 < texCenterQ n k + 1 / n ↔ k = n - 1) := by
    intro n k hk
    have hn : (0 : ℚ) < n := by exact_mod_cast Nat.pos_of_ne_zero (by omega)
    unfold texCenterQ
    rw [div_add_div_same, lt_div_iff₀ hn]
    constructor
    · intro hlt
      have h2 : (n : ℚ) < (k : ℚ) + 2 := by nlinarith
      have h3 : n < k + 2 := by exact_mod_cast h2
      omega
    · intro hk1
      subst hk1
      have h1 : 1 ≤ n := by omega
      push_cast [Nat.cast_sub h1]
      nlinarith
  have hL := edgeLow w i hi
  have hR := edgeHigh w i hi
  have hT := edgeHigh h j hj
  have hB := edgeLow h j hj
  have hLv : (if texCenterQ w i - 1 / w < 0 then -(vel i j).1
              else (sampleC vel w h ((i : ℤ) - 1) j).1)
      = (if i = 0 then -(vel i j).1 else (vel (i - 1) j).1) := by
    rw [if_congr hL rfl rfl]
    by_cases h0 : i = 0
    · simp [h0]
    · rw [if_neg h0, if_neg h0,
        sampleC_eval vel w h _ _ (by omega) (by omega) (by omega) (by omega)]
      have e1 : ((i : ℤ) - 1).toNat = i - 1 := by omega
      have e2 : ((j : ℤ)).toNat = j := by omega
      rw [e1, e2]
  have hRv : (if 1 < texCenterQ w i + 1 / w then -(vel i j).1
              else (sampleC vel w h ((i : ℤ) + 1) j).1)
      = (if i = w - 1 then -(vel i j).1 else (vel (i + 1) j).1) := by
    rw [if_congr hR rfl rfl]
    by_cases h0 : i = w - 1
    · simp [h0]
    · rw [if_neg h0, if_neg h0,
        sampleC_eval vel w h _ _ (by omega) (by omega) (by omega) (by omega)]
      have e1 : ((i : ℤ) + 1).toNat = i + 1 := by omega
      have e2 : ((j : ℤ)).toNat = j := by omega
      rw [e1, e2]
  have hTv : (if 1 < texCenterQ h j + 1 / h then -(vel i j).2
              else (sampleC vel w h i ((j : ℤ) + 1)).2)
      = (if j = h - 1 then -(vel i j).2 else (vel i (j + 1)).2) := by
    rw [if_congr hT rfl rfl]
    by_cases h0 : j = h - 1
    · simp [h0]
    · rw [if_neg h0, if_neg h0,
        sampleC_eval vel w h _ _ (by omega) (by omega) (by omega) (by omega)]
      have e1 : ((i : ℤ)).toNat = i := by omega
      have e2 : ((j : ℤ) + 1).toNat = j + 1 := by omega
      rw [e1, e2]
  have hBv : (if texCenterQ h j - 1 / h < 0 then -(vel i j).2
              else (sampleC vel w h i ((j : ℤ) - 1)).2)
      = (if j = 0 then -(vel i j).2 else (vel i (j - 1)).2) := by
    rw [if_congr hB rfl rfl]
    by_cases h0 : j = 0
    · simp [h0]
    · rw [if_neg h0, if_neg h0,
        sampleC_eval vel w h _ _ (by omega) (by omega) (by omega) (by omega)]
      have e1 : ((i : ℤ)).toNat = i := by omega
      have e2 : ((j : ℤ) - 1).toNat = j - 1 := by omega
      rw [e1, e2]
  show (1 / 2 : ℝ) * (_ - _ + _ - _) = _
  rw [hLv, hRv, hTv, hBv]
  ring

/-- Witness for C3 on a concrete 3×3 grid at an interior and an edge texel. -/
theorem divergence_mirrored_boundary_witness :
    divergenceShaderAt 3 3 (fun a b => ((a : ℝ), (b : ℝ))) 1 1 = 2 ∧
    divergenceShaderAt 3 3 (fun a b => ((a : ℝ), (b : ℝ))) 0 0 = 1 := by
  constructor
  · have h := divergence_mirrored_boundary 3 3 (fun a b => ((a : ℝ), (b : ℝ))) 1 1
      (by decide) (by decide)
    rw [h]
    norm_num
  · have h := divergence_mirrored_boundary 3 3 (fun a b => ((a : ℝ), (b : ℝ))) 0 0
      (by decide) (by decide)
    rw [h]
    norm_num

theorem genCallIdx_eq (start : ℕ) (rands : ℕ → ℚ) :
    ∀ i : ℕ, genCallIdx start rands i = start + i
  | 0 => rfl
  | i + 1 => by
    show (generateColor (genCallIdx start rands i) (rands i)).2 = start + (i + 1)
    rw [genCallIdx_eq start rands i]
    rfl

/-- C8: across consecutive `generateColor` calls the palette entries are
selected round-robin modulo the palette length 4 — the `i`-th call starting
from index `start` picks `PALETTE[(start + i) % 4]` — and the hue jitter of
each call is bounded in absolute value by 0.03 (for a `Math.random()` draw
in `[0, 1)`). -/
theorem palette_round_robin_and_jitter_bound
    (start : ℕ) (rands : ℕ → ℚ) (i idx : ℕ) (rand : ℚ)
    (h0 : 0 ≤ rand) (h1 : rand < 1) :
    PALETTE.length = 4 ∧
    genCallIdx start rands i = start + i ∧
    genPick (genCallIdx start rands i) = PALETTE.getD ((start + i) % 4) (0, 0, 0) ∧
    (generateColor idx rand).2 = idx + 1 ∧
    |jitterOf rand| ≤ 3 / 100 := by
  refine ⟨rfl, genCallIdx_eq start rands i, ?_, rfl, ?_⟩
  · rw [genCallIdx_eq start rands i]
    rfl
  · unfold jitterOf
    rw [abs_mul, abs_of_nonneg (by norm_num : (0 : ℚ) ≤ 6 / 100)]
    have hx : |rand - 1 / 2| ≤ 1 / 2 := abs_le.mpr ⟨by linarith, by linarith⟩
    have hm := mul_le_mul_of_nonneg_right hx (by norm_num : (0 : ℚ) ≤ 6 / 100)
    linarith

/-- Witness for C8: the third call starting from palette index 2 picks
entry `(2 + 3) % 4 = 1`, and a median random draw produces zero jitter. -/
theorem palette_round_robin_and_jitter_bound_witness :
    genPick (genCallIdx 2 (fun _ => 1 / 2) 3) = PALETTE.getD 1 (0, 0, 0) ∧
    |jitterOf (1 / 2)| ≤ 3 / 100 := by
  have h := palette_round_robin_and_jitter_bound 2 (fun _ => 1 / 2) 3 0 (1 / 2)
    (by norm_num) (by norm_num)
  exact ⟨h.2.2.1, h.2.2.2.2⟩

theorem reassignColors_eq : ∀ (ps : List Pointer) (idx : ℕ) (tape : ℕ → ℚ) (pos : ℕ),
    reassignColors idx ⟨tape, pos⟩ ps
      = (reassignedList idx tape pos ps, idx + ps.length, ⟨tape, pos + ps.length⟩)
  | [], idx, tape, pos => by simp [reassignColors, reassignedList]
  | p :: ps, idx, tape, pos => by
    have h1 : generateColorR idx ⟨tape, pos⟩
        = ((generateColor idx (tape pos)).1, idx + 1, ⟨tape, pos + 1⟩) := rfl
    simp only [reassignColors, h1, reassignColors_eq ps (idx + 1) tape (pos + 1),
      reassignedList, List.length_cons, Prod.mk.injEq, RandSource.mk.injEq]
    refine ⟨trivial, by omega, trivial, by omega⟩

theorem reassignedList_getD (ps : List Pointer) :
    ∀ (idx : ℕ) (tape : ℕ → ℚ) (pos k : ℕ) (q : Pointer),
      k < ps.length →
      (reassignedList idx tape pos ps).getD k q
        = { ps.getD k q with color := (generateColor (idx + k) (tape (pos + k))).1 } := by
  induction ps with
  | nil => intro idx tape pos k q h; exact absurd h (by simp)
  | cons p ps ih =>
    intro idx tape pos k q h
    cases k with
    | zero => simp [reassignedList]
    | succ k =>
      simp only [reassignedList, List.getD_cons_succ]
      rw [ih (idx + 1) tape (pos + 1) k q (by simpa using h),
        show idx + 1 + k = idx + (k + 1) by omega,
        show pos + 1 + k = pos + (k + 1) by omega]

/-- C9 (amended): with palette cycling enabled, pointer colors are reassigned
only when the accumulated color timer crosses the threshold 1 (not every
tick); on such a crossing, however, the colors of ALL tracked pointers are
reassigned — the `k`-th pointer receives the `k`-th freshly generated color —
regardless of their `down` state. -/
theorem color_cycle_crossing_reassigns_all (dt timer : ℚ) (ps : List Pointer)
    (idx : ℕ) (tape : ℕ → ℚ) (pos k : ℕ) (q : Pointer) :
    (timer + dt * CONFIG.COLOR_UPDATE_SPEED < 1 →
      updateColors dt timer ps idx ⟨tape, pos⟩
        = (timer + dt * CONFIG.COLOR_UPDATE_SPEED, ps, idx, ⟨tape, pos⟩)) ∧
    (1 ≤ timer + dt * CONFIG.COLOR_UPDATE_SPEED →
      updateColors dt timer ps idx ⟨tape, pos⟩
        = (wrap (timer + dt * CONFIG.COLOR_UPDATE_SPEED) 0 1,
           reassignedList idx tape pos ps, idx + ps.length,
           ⟨tape, pos + ps.length⟩)) ∧
    (k < ps.length →
      (reassignedList idx tape pos ps).getD k q
        = { ps.getD k q with color := (generateColor (idx + k) (tape (pos + k))).1 }) := by
  refine ⟨fun hlt => ?_, fun hge => ?_, fun hk => reassignedList_getD ps idx tape pos k q hk⟩
  · simp only [updateColors, CONFIG.COLORFUL, if_true]
    rw [if_neg (not_le.mpr hlt)]
  · simp only [updateColors, CONFIG.COLORFUL, if_true]
    rw [if_pos hge, reassignColors_eq ps idx tape pos]

/-- Witness for C9 (amended) at a concrete crossing tick. -/
theorem color_cycle_crossing_reassigns_all_witness :
    (1 : ℚ) ≤ 0 + (1 / 9) * CONFIG.COLOR_UPDATE_SPEED ∧
    updateColors (1 / 9) 0 [coldPointer] 0 ⟨fun _ => 1 / 2, 0⟩
      = (wrap (0 + (1 / 9) * CONFIG.COLOR_UPDATE_SPEED) 0 1,
         reassignedList 0 (fun _ => 1 / 2) 0 [coldPointer], 0 + 1,
         ⟨fun _ => 1 / 2, 0 + 1⟩) :=
  ⟨by norm_num [CONFIG.COLOR_UPDATE_SPEED],
   (color_cycle_crossing_reassigns_all (1 / 9) 0 [coldPointer] 0 (fun _ => 1 / 2) 0 0
      coldPointer).2.1 (by norm_num [CONFIG.COLOR_UPDATE_SPEED])⟩

/-- Counterexample for C9 as stated: on a threshold-crossing tick, a pointer
that is NOT active (`down = false`) does not keep its color — `updateColors`
reassigns every pointer's color. -/
theorem color_cycle_only_active_counterexample :
    coldPointer.down = false ∧
    ((updateColors (1 / 9) 0 [coldPointer] 0 ⟨fun _ => 1 / 2, 0⟩).2.1.getD 0
        coldPointer).color ≠ coldPointer.color := by
  refine ⟨rfl, ?_⟩
  have hup : updateColors (1 / 9) 0 [coldPointer] 0 ⟨fun _ => 1 / 2, 0⟩
      = (wrap (0 + (1 / 9) * CONFIG.COLOR_UPDATE_SPEED) 0 1,
         reassignedList 0 (fun _ => 1 / 2) 0 [coldPointer], 0 + 1,
         ⟨fun _ => 1 / 2, 0 + 1⟩) := by
    simp only [updateColors, CONFIG.COLORFUL, if_true]
    rw [if_pos (by norm_num [CONFIG.COLOR_UPDATE_SPEED]),
      reassignColors_eq [coldPointer] 0 (fun _ => 1 / 2) 0]
    rfl
  rw [hup]
  simp only [reassignedList, List.getD_cons_zero]
  show (generateColor 0 (1 / 2)).1 ≠ coldPointer.color
  simp only [generateColor, genPick, PALETTE, jitterOf, jsMod, jsTrunc, HSVtoRGB,
    coldPointer]
  norm_num [Int.toNat_ofNat]

/-- C10: splat injection is not gated by the pause flag. In a paused tick the
fields are exactly the output of the input phase (colors, splat-stack bursts
and pending pointer-move splats all still run; only the solver step is
skipped), each `splat` call runs its additive Gaussian passes on the velocity
and dye double buffers and swaps each exactly once, and the host-facing
`splatNormalized` entry point feeds `splat` directly with a 1500-scaled
impulse, with no pause check anywhere on that path. -/
theorem splats_not_gated_by_pause (dt : ℚ) (cw ch : ℕ) (st : EngineState)
    (aspect x y dx dy : ℚ) (c : ℚ × ℚ × ℚ) (f : Fields) (p : Pointer)
    (ps : List Pointer) (i j : ℕ) :
    (update true dt cw ch st).1.fields
      = (inputPhase (colorPhase dt (resizePhase cw ch st))).fields ∧
    (splat aspect x y dx dy c f).velocity.read i j
      = f.velocity.read i j
        + splatFalloff (aspect : ℝ)
            ((correctRadius aspect (CONFIG.SPLAT_RADIUS / 100) : ℚ) : ℝ)
            (texCenterR f.velocity.width i - (x : ℝ))
            (texCenterR f.velocity.height j - (y : ℝ))
          • (((dx : ℝ), (dy : ℝ)) : Vec2) ∧
    (splat aspect x y dx dy c f).velocity.readIdx = !f.velocity.readIdx ∧
    (splat aspect x y dx dy c f).dye.read i j
      = f.dye.read i j
        + splatFalloff (aspect : ℝ)
            ((correctRadius aspect (CONFIG.SPLAT_RADIUS / 100) : ℚ) : ℝ)
            (texCenterR f.dye.width i - (x : ℝ))
            (texCenterR f.dye.height j - (y : ℝ))
          • (((c.1 : ℝ), (c.2.1 : ℝ), (c.2.2 : ℝ)) : Col3) ∧
    (splat aspect x y dx dy c f).dye.readIdx = !f.dye.readIdx ∧
    (splat aspect x y dx dy c f).pressure = f.pressure ∧
    (splatPointers aspect (p :: ps) f).2
      = (splatPointers aspect ps (if p.moved then splatPointer aspect p f else f)).2 ∧
    splatPointer aspect p f
      = splat aspect p.texcoordX p.texcoordY (p.deltaX * CONFIG.SPLAT_FORCE)
          (p.deltaY * CONFIG.SPLAT_FORCE) p.color f ∧
    splatNormalized aspect x y dx dy c f = splat aspect x y (dx * 1500) (dy * 1500) c f := by
  refine ⟨rfl, ?_, ?_, ?_, ?_, rfl, ?_, rfl, rfl⟩
  · show ((f.velocity.setWrite _).swap).read i j = _
    rw [DoubleFBO.read_swap_setWrite]
    rfl
  · exact DoubleFBO.readIdx_swap_setWrite f.velocity _
  · show ((f.dye.setWrite _).swap).read i j = _
    rw [DoubleFBO.read_swap_setWrite]
    rfl
  · exact DoubleFBO.readIdx_swap_setWrite f.dye _
  · by_cases hm : p.moved <;> simp [splatPointers, hm]

theorem splatPointers_no_moved (aspect : ℚ) :
    ∀ (ps : List Pointer) (f : Fields), (∀ p ∈ ps, p.moved = false) →
      splatPointers aspect ps f = (ps, f)
  | [], f, _ => rfl
  | p :: ps, f, h => by
    have hp : p.moved = false := h p (by simp)
    have hrec := splatPointers_no_moved aspect ps f (fun q hq => h q (by simp [hq]))
    simp [splatPointers, hp, hrec]

theorem reassignColors_moved :
    ∀ (ps : List Pointer) (idx : ℕ) (r : RandSource),
      (∀ p ∈ ps, p.moved = false) →
      ∀ q ∈ (reassignColors idx r ps).1, q.moved = false
  | [], _, _, _ => by simp [reassignColors]
  | p :: ps, idx, r, h => by
    rcases hgen : generateColorR idx r with ⟨c, idx', r'⟩
    rcases hrec : reassignColors idx' r' ps with ⟨ps', idx'', r''⟩
    intro q hq
    simp only [reassignColors, hgen, hrec, List.mem_cons] at hq
    rcases hq with hq | hq
    · rw [hq]
      exact h p (by simp)
    · exact reassignColors_moved ps idx' r' (fun a ha => h a (by simp [ha])) q
        (by rw [hrec]; exact hq)

theorem updateColors_moved (dt timer : ℚ) (ps : List Pointer) (idx : ℕ)
    (r : RandSource) (h : ∀ p ∈ ps, p.moved = false) :
    ∀ q ∈ (updateColors dt timer ps idx r).2.1, q.moved = false := by
  unfold updateColors
  rcases hre : reassignColors idx r ps with ⟨ps', idx', r'⟩
  have hall := reassignColors_moved ps idx r h
  rw [hre] at hall
  simp only [CONFIG.COLORFUL, if_true, hre]
  split
  · exact hall
  · exact h

theorem colorPhase_spec (dt : ℚ) (st : EngineState) :
    (colorPhase dt st).fields = st.fields ∧
    (colorPhase dt st).splatStack = st.splatStack ∧
    (colorPhase dt st).canvasW = st.canvasW ∧
    (colorPhase dt st).canvasH = st.canvasH ∧
    (colorPhase dt st).pointers
      = (updateColors dt st.colorTimer st.pointers st.paletteIdx st.rnd).2.1 := by
  rcases h : updateColors dt st.colorTimer st.pointers st.paletteIdx st.rnd
    with ⟨t, ps, idx, r⟩
  simp [colorPhase, h]

theorem inputPhase_no_inputs (s : EngineState) (hstack : s.splatStack = [])
    (hmv : ∀ p ∈ s.pointers, p.moved = false) : inputPhase s = s := by
  have hsp := splatPointers_no_moved ((s.canvasW : ℚ) / (s.canvasH : ℚ))
    s.pointers s.fields hmv
  rcases s with ⟨cw, ch, f, ps, stack, t, idx, r⟩
  simp only at hstack hsp
  subst hstack
  simp [inputPhase, hsp]

theorem resizePhase_self (st : EngineState) :
    resizePhase st.canvasW st.canvasH st = st := by
  simp [resizePhase]

/-- C6 (amended): pause suspends only the simulation stepper. In a paused
tick with no pending inputs (empty splat stack and no moved pointers) and no
surface resize, the velocity, dye and pressure field contents are bit for bit
those of the previous tick, while the color/input phases still run and the
renderer still produces the display-shader image of the current dye field. -/
theorem pause_skips_only_solver (dt : ℚ) (st : EngineState)
    (hstack : st.splatStack = []) (hmv : ∀ p ∈ st.pointers, p.moved = false) :
    (update true dt st.canvasW st.canvasH st).1.fields = st.fields ∧
    (update true dt st.canvasW st.canvasH st).2
      = (fun px py => displayShaderAt st.canvasW st.canvasH st.fields.dye.width
          st.fields.dye.height st.fields.dye.read (13 / 20) px py) ∧
    (update true dt st.canvasW st.canvasH st).1.pointers
      = (updateColors dt st.colorTimer st.pointers st.paletteIdx st.rnd).2.1 := by
  have hcp := colorPhase_spec dt st
  have hmv2 : ∀ p ∈ (colorPhase dt st).pointers, p.moved = false := by
    rw [hcp.2.2.2.2]
    exact updateColors_moved dt st.colorTimer st.pointers st.paletteIdx st.rnd hmv
  have hstack2 : (colorPhase dt st).splatStack = [] := by rw [hcp.2.1]; exact hstack
  have hip : inputPhase (colorPhase dt st) = colorPhase dt st :=
    inputPhase_no_inputs _ hstack2 hmv2
  have hupd : update true dt st.canvasW st.canvasH st
      = (inputPhase (colorPhase dt (resizePhase st.canvasW st.canvasH st)),
         renderImage (inputPhase (colorPhase dt (resizePhase st.canvasW st.canvasH st)))) :=
    rfl
  rw [hupd, resizePhase_self st, hip]
  refine ⟨hcp.1, ?_, hcp.2.2.2.2⟩
  show renderImage (colorPhase dt st) = _
  unfold renderImage
  rw [hcp.1, hcp.2.2.1, hcp.2.2.2.1]
  simp [CONFIG.SHADING]

/-- Witness for C6 (amended) at a concrete paused state with no pending
inputs: the fields are untouched by the tick. -/
theorem pause_skips_only_solver_witness :
    (update true 1 pausedIdleState.canvasW pausedIdleState.canvasH
        pausedIdleState).1.fields = pausedIdleState.fields :=
  (pause_skips_only_solver 1 pausedIdleState rfl
    (by intro p hp; simp only [pausedIdleState, pausedMovedState, List.mem_singleton] at hp
        rw [hp]; rfl)).1

/-- Counterexample for C6 as stated: in a paused tick that has a pending
pointer-move splat, the dye field contents are NOT bit-identical to the
previous tick's — the splat still fires while paused. -/
theorem pause_fields_identical_counterexample :
    ((update true 0 100 100 pausedMovedState).1.fields.dye.read 0 0).1
      ≠ (pausedMovedState.fields.dye.read 0 0).1 := by
  have h : (update true 0 100 100 pausedMovedState).1.fields.dye.read 0 0
      = (((0 : ℝ), (0 : ℝ), (0 : ℝ)) : Col3)
        + splatFalloff ((((100 : ℚ) / 100) : ℚ) : ℝ)
            ((correctRadius ((100 : ℚ) / 100) (CONFIG.SPLAT_RADIUS / 100) : ℚ) : ℝ)
            (texCenterR 2 0 - (((1 : ℚ) / 2 : ℚ) : ℝ))
            (texCenterR 2 0 - (((1 : ℚ) / 2 : ℚ) : ℝ))
          • ((((1 : ℚ) : ℝ), ((0 : ℚ) : ℝ), ((0 : ℚ) : ℝ)) : Col3) := by
    with_unfolding_all rfl
  have hr : (pausedMovedState.fields.dye.read 0 0).1 = (0 : ℝ) := rfl
  rw [hr]
  intro habs
  rw [h] at habs
  have hpos : 0 < splatFalloff ((((100 : ℚ) / 100) : ℚ) : ℝ)
      ((correctRadius ((100 : ℚ) / 100) (CONFIG.SPLAT_RADIUS / 100) : ℚ) : ℝ)
      (texCenterR 2 0 - (((1 : ℚ) / 2 : ℚ) : ℝ))
      (texCenterR 2 0 - (((1 : ℚ) / 2 : ℚ) : ℝ)) := Real.exp_pos _
  simp only [Prod.fst_add, Prod.smul_fst, smul_eq_mul, Rat.cast_one, mul_one,
    zero_add] at habs
  exact hpos.ne' habs

theorem splatTotal_eq (a r : ℝ) (ha : 0 < a) (hr : 0 < r) :
    splatTotal a r = Real.pi * r / a := by
  have hsplit : ∀ p : ℝ × ℝ,
      splatFalloff a r p.1 p.2
        = Real.exp (-(a ^ 2 / r) * p.1 ^ 2) * Real.exp (-(1 / r) * p.2 ^ 2) := by
    intro p
    unfold splatFalloff
    rw [← Real.exp_add]
    congr 1
    field_simp
    ring
  unfold splatTotal
  simp_rw [hsplit]
  rw [MeasureTheory.Measure.volume_eq_prod,
    show (∫ p : ℝ × ℝ, Real.exp (-(a ^ 2 / r) * p.1 ^ 2) * Real.exp (-(1 / r) * p.2 ^ 2)
          ∂(MeasureTheory.volume.prod MeasureTheory.volume))
        = (∫ x : ℝ, Real.exp (-(a ^ 2 / r) * x ^ 2)) * ∫ y : ℝ, Real.exp (-(1 / r) * y ^ 2)
      from MeasureTheory.integral_prod_mul (fun x => Real.exp (-(a ^ 2 / r) * x ^ 2))
        (fun y => Real.exp (-(1 / r) * y ^ 2)),
    integral_gaussian, integral_gaussian,
    show Real.pi / (a ^ 2 / r) = Real.pi * r / a ^ 2 by field_simp,
    show Real.pi / (1 / r) = Real.pi * r by field_simp,
    show Real.pi * r / a ^ 2 = Real.pi * r / a ^ 2 from rfl,
    Real.sqrt_div (by positivity : (0 : ℝ) ≤ Real.pi * r),
    Real.sqrt_sq ha.le, div_mul_eq_mul_div,
    Real.mul_self_sqrt (by positivity : (0 : ℝ) ≤ Real.pi * r)]

/-- C7: with radii compared after aspect correction, the splat kernel
`exp(-|Δp|² / r) · impulse` with the smaller radius is sharper and more
spatially concentrated — strictly smaller falloff at every nonzero offset,
equal unit falloff at the center — and at equal total injected force it has
the strictly higher peak. -/
theorem smaller_radius_sharper_splat (a r1 r2 i1 i2 : ℝ)
    (ha : 0 < a) (hr1 : 0 < r1) (hr12 : r1 < r2) (hi2 : 0 < i2)
    (heq : i1 * splatTotal a r1 = i2 * splatTotal a r2) :
    splatFalloff a r1 0 0 = 1 ∧ splatFalloff a r2 0 0 = 1 ∧
    (∀ dx dy : ℝ, ¬(dx = 0 ∧ dy = 0) →
      splatFalloff a r1 dx dy < splatFalloff a r2 dx dy) ∧
    i2 * splatFalloff a r2 0 0 < i1 * splatFalloff a r1 0 0 := by
  have hr2 : 0 < r2 := hr1.trans hr12
  have h0 : ∀ r : ℝ, splatFalloff a r 0 0 = 1 := by
    intro r
    unfold splatFalloff
    norm_num
  have hsharp : ∀ dx dy : ℝ, ¬(dx = 0 ∧ dy = 0) →
      splatFalloff a r1 dx dy < splatFalloff a r2 dx dy := by
    intro dx dy hne
    unfold splatFalloff
    apply Real.exp_lt_exp.mpr
    have hq : 0 < (dx * a) ^ 2 + dy ^ 2 := by
      rcases not_and_or.mp hne with h | h
      · have hxa : dx * a ≠ 0 := mul_ne_zero h ha.ne'
        positivity
      · positivity
    have hd := div_lt_div_of_pos_left hq hr1 hr12
    rw [neg_div, neg_div]
    exact neg_lt_neg hd
  refine ⟨h0 r1, h0 r2, hsharp, ?_⟩
  rw [h0 r1, h0 r2, mul_one, mul_one]
  rw [splatTotal_eq a r1 ha hr1, splatTotal_eq a r2 ha hr2] at heq
  have hπ := Real.pi_pos
  have h2 : Real.pi * (i1 * r1) = Real.pi * (i2 * r2) := by
    field_simp at heq
    nlinarith [heq]
  have h1 := mul_left_cancel₀ (ne_of_gt hπ) h2
  nlinarith [h1, hr1, hr12, hi2]

/-- Witness for C7 with radii 1 < 2 and impulses 2, 1 of equal total force. -/
theorem smaller_radius_sharper_splat_witness :
    splatFalloff 1 1 1 0 < splatFalloff 1 2 1 0 ∧
    1 * splatFalloff 1 2 0 0 < 2 * splatFalloff 1 1 0 0 := by
  have h := smaller_radius_sharper_splat 1 1 2 2 1 (by norm_num) (by norm_num)
    (by norm_num) (by norm_num)
    (by rw [splatTotal_eq 1 1 (by norm_num) (by norm_num),
          splatTotal_eq 1 2 (by norm_num) (by norm_num)]
        ring)
  exact ⟨h.2.2.1 1 0 (by norm_num), h.2.2.2⟩

end FluidSim
